import Mathlib

/-!
Shallow embedding of the synchronization engine of the saas-pharma backend
(`app/api/v1/sync.py`, with the data model of `app/models/{product,customer,
supplier,sale,sync,pharmacy}.py` and the request schemas of
`app/schemas/sync.py`).

Conventions of the embedding:
- timestamps (`datetime`) are `Nat`; nullable columns are `Option _`;
  SQLAlchemy `Float` money columns are represented as `Int` (the sync code
  only copies these values, it never computes with them);
- a Python dict payload (`Dict[str, Any]`) becomes the `SyncItem` structure:
  a field `some v` means the key is present with value `v`, `none` means the
  key is absent; `data.get(k, dflt)` becomes `getOr`/`numOr`/`boolOr`;
- Python truthiness tests (`if sync_id:`, `if data.get("id"):`,
  `if data.get("items"):`, `x or y`) are modelled by the `truthy*` helpers,
  so that `None`, `""`, `0` and `[]` are all falsy, as in Python;
- the mutable SQLAlchemy session becomes explicit state passing on `DB` /
  `SyncState`; `query(...).filter(...).first()` followed by attribute
  mutation becomes `updateFirst`; `db.add` of a fresh row becomes appending
  a row whose primary key is the table's autoincrement counter;
- columns never read nor written by the sync code (e.g. `unit`,
  `created_at`) are omitted from the row structures;
- `updated_at` has `onupdate=func.now()`, so every upsert refreshes it, and
  every upsert sets `last_sync_at = datetime.utcnow()`; both become the
  explicit `now : Nat` parameter;
- an HTTP-level failure is an `Except.error`; the pydantic validation of
  `SyncRequest.direction : SyncDirection` is modelled by `parse_direction`
  in front of the handler;
- database calls inside the `try` block of `sync_data` can raise; the model
  makes this explicit with an optional injected exception `SyncExn` naming
  the phase (upload / download / conflict handling) at which it is raised.
-/

namespace SaasPharma

/-- Python truthiness of an optional string: `None` and `""` are falsy. -/
def truthyStr : Option String → Bool
  | none => false
  | some s => s ≠ ""

/-- Python truthiness of an optional integer key: `None` and `0` are falsy. -/
def truthyNat : Option Nat → Bool
  | none => false
  | some n => n ≠ 0

/-- Python truthiness of an optional list: `None` and `[]` are falsy. -/
def truthyList {α : Type} : Option (List α) → Bool
  | none => false
  | some [] => false
  | some (_ :: _) => true

/-- `data.get(k, cur)`: the payload value if the key is present, else `cur`. -/
def getOr {α : Type} (d cur : Option α) : Option α :=
  match d with
  | some v => some v
  | none => cur

/-- `data.get(k, row.f or 0)` on a nullable numeric column. -/
def numOr (d cur : Option Int) : Option Int :=
  some (d.getD (cur.getD 0))

/-- `data.get(k, row.f if row.f is not None else dflt)` (and, for
`dflt = false`, the equivalent `row.f or False`) on a nullable boolean. -/
def boolOr (dflt : Bool) (d cur : Option Bool) : Option Bool :=
  some (d.getD (cur.getD dflt))

/-- Python `sync_id or row.sync_id` where `sync_id = data.get("sync_id")`. -/
def pyStrOr (d cur : Option String) : Option String :=
  if truthyStr d then d else cur

/-- Update the first element satisfying `p` (SQLAlchemy
`query.filter(...).first()` followed by mutating the found row);
`none` when no row matches. -/
def updateFirst {α : Type} (p : α → Bool) (f : α → α) : List α → Option (List α)
  | [] => none
  | x :: xs => if p x then some (f x :: xs) else (updateFirst p f xs).map (x :: ·)

/-! ## Row structures (`app/models/...`) -/

/-- A row of the `products` table (sync-relevant columns). -/
structure Product where
  id : Nat
  pharmacy_id : Nat
  name : Option String
  description : Option String
  barcode : Option String
  sku : Option String
  category_id : Option Nat
  quantity : Option Int
  min_quantity : Option Int
  purchase_price : Option Int
  selling_price : Option Int
  expiry_date : Option Nat
  is_active : Option Bool
  is_prescription_required : Option Bool
  sync_id : Option String
  last_sync_at : Option Nat
  updated_at : Nat
deriving DecidableEq, Repr

/-- A row of the `customers` table (sync-relevant columns). -/
structure Customer where
  id : Nat
  pharmacy_id : Nat
  first_name : Option String
  last_name : Option String
  email : Option String
  phone : Option String
  address : Option String
  city : Option String
  date_of_birth : Option Nat
  allergies : Option String
  medical_notes : Option String
  is_active : Option Bool
  sync_id : Option String
  last_sync_at : Option Nat
  updated_at : Nat
deriving DecidableEq, Repr

/-- A row of the `suppliers` table (sync-relevant columns; the declared
contact column is `contact_person` — `_upsert_supplier` instead reads the
nonexistent attribute `contact_name` and therefore always raises, see
`upsertSupplier`). -/
structure Supplier where
  id : Nat
  pharmacy_id : Nat
  name : Option String
  contact_person : Option String
  phone : Option String
  email : Option String
  address : Option String
  tax_id : Option String
  is_active : Option Bool
  last_sync_at : Option Nat
  updated_at : Nat
deriving DecidableEq, Repr

/-- A row of the `supplier_orders` table (sync-relevant columns, plus the
NOT NULL columns `order_number` and `user_id`, which `_upsert_supplier_order`
never assigns and which therefore stay null on a freshly inserted order). -/
structure SupplierOrder where
  id : Nat
  pharmacy_id : Nat
  order_number : Option String
  user_id : Option Nat
  supplier_id : Option Nat
  expected_delivery_date : Option Nat
  status : Option String
  notes : Option String
  tax : Option Int
  shipping_cost : Option Int
  total_amount : Option Int
  last_sync_at : Option Nat
  updated_at : Nat
deriving DecidableEq, Repr

/-- A row of the `sale_items` table (child collection of a sale). -/
structure SaleItem where
  product_id : Option Nat
  quantity : Int
  unit_price : Int
  discount : Int
  total : Int
deriving DecidableEq, Repr

/-- A row of the `sales` table with its `items` child collection. -/
structure Sale where
  id : Nat
  pharmacy_id : Nat
  user_id : Nat
  sale_number : Option String
  customer_id : Option Nat
  prescription_id : Option Nat
  total_amount : Option Int
  discount : Option Int
  tax : Option Int
  final_amount : Option Int
  payment_method : Option String
  status : Option String
  notes : Option String
  sync_id : Option String
  items : List SaleItem
  last_sync_at : Option Nat
  updated_at : Nat
deriving DecidableEq, Repr

/-- One entry of an inbound `items` list of a sale payload. -/
structure SaleItemIn where
  product_id : Option Nat
  quantity : Option Int
  unit_price : Option Int
  discount : Option Int
  total : Option Int
deriving DecidableEq, Repr

/-- One inbound record (`Dict[str, Any]`): the union of all keys read by the
five upserters; `some` = key present, `none` = key absent. -/
structure SyncItem where
  id : Option Nat
  sync_id : Option String
  name : Option String
  description : Option String
  barcode : Option String
  sku : Option String
  category_id : Option Nat
  quantity : Option Int
  min_quantity : Option Int
  purchase_price : Option Int
  selling_price : Option Int
  expiry_date : Option Nat
  is_active : Option Bool
  is_prescription_required : Option Bool
  first_name : Option String
  last_name : Option String
  email : Option String
  phone : Option String
  address : Option String
  city : Option String
  date_of_birth : Option Nat
  allergies : Option String
  medical_notes : Option String
  contact_name : Option String
  tax_id : Option String
  supplier_id : Option Nat
  expected_delivery_date : Option Nat
  status : Option String
  notes : Option String
  tax : Option Int
  shipping_cost : Option Int
  total_amount : Option Int
  sale_number : Option String
  customer_id : Option Nat
  prescription_id : Option Nat
  discount : Option Int
  final_amount : Option Int
  payment_method : Option String
  items : Option (List SaleItemIn)
deriving DecidableEq, Repr

/-- The all-keys-absent inbound record. -/
def item0 : SyncItem where
  id := none
  sync_id := none
  name := none
  description := none
  barcode := none
  sku := none
  category_id := none
  quantity := none
  min_quantity := none
  purchase_price := none
  selling_price := none
  expiry_date := none
  is_active := none
  is_prescription_required := none
  first_name := none
  last_name := none
  email := none
  phone := none
  address := none
  city := none
  date_of_birth := none
  allergies := none
  medical_notes := none
  contact_name := none
  tax_id := none
  supplier_id := none
  expected_delivery_date := none
  status := none
  notes := none
  tax := none
  shipping_cost := none
  total_amount := none
  sale_number := none
  customer_id := none
  prescription_id := none
  discount := none
  final_amount := none
  payment_method := none
  items := none

/-- The entity tables plus their autoincrement counters. -/
structure DB where
  products : List Product
  customers : List Customer
  suppliers : List Supplier
  orders : List SupplierOrder
  sales : List Sale
  nextProductId : Nat
  nextCustomerId : Nat
  nextSupplierId : Nat
  nextOrderId : Nat
  nextSaleId : Nat
deriving DecidableEq, Repr

/-- The empty database. -/
def emptyDB : DB where
  products := []
  customers := []
  suppliers := []
  orders := []
  sales := []
  nextProductId := 1
  nextCustomerId := 1
  nextSupplierId := 1
  nextOrderId := 1
  nextSaleId := 1

/-! ## The upserters (`_upsert_*` of `app/api/v1/sync.py`) -/

/-- `Product.pharmacy_id == pharmacy_id, Product.sync_id == sync_id`. -/
def productSyncQuery (pharmacy_id : Nat) (data : SyncItem) (p : Product) : Bool :=
  p.pharmacy_id == pharmacy_id && p.sync_id == data.sync_id

/-- `Product.pharmacy_id == pharmacy_id, Product.id == data["id"]`. -/
def productIdQuery (pharmacy_id : Nat) (data : SyncItem) (p : Product) : Bool :=
  p.pharmacy_id == pharmacy_id && some p.id == data.id

/-- The field assignments of `_upsert_product` (lines 238-252). -/
def applyProduct (data : SyncItem) (now : Nat) (p : Product) : Product :=
  { p with
    name := getOr data.name p.name
    description := getOr data.description p.description
    barcode := getOr data.barcode p.barcode
    sku := getOr data.sku p.sku
    category_id := getOr data.category_id p.category_id
    quantity := numOr data.quantity p.quantity
    min_quantity := numOr data.min_quantity p.min_quantity
    purchase_price := numOr data.purchase_price p.purchase_price
    selling_price := numOr data.selling_price p.selling_price
    expiry_date := getOr data.expiry_date p.expiry_date
    is_active := boolOr true data.is_active p.is_active
    is_prescription_required := boolOr false data.is_prescription_required p.is_prescription_required
    sync_id := pyStrOr data.sync_id p.sync_id
    last_sync_at := some now
    updated_at := now }

/-- `Product(pharmacy_id=pharmacy_id)` with the autoincrement id `i`. -/
def newProduct (i pharmacy_id : Nat) : Product where
  id := i
  pharmacy_id := pharmacy_id
  name := none
  description := none
  barcode := none
  sku := none
  category_id := none
  quantity := none
  min_quantity := none
  purchase_price := none
  selling_price := none
  expiry_date := none
  is_active := none
  is_prescription_required := none
  sync_id := none
  last_sync_at := none
  updated_at := 0

/-- `_upsert_product`: match by `sync_id` if truthy, else by `id` if truthy,
else insert a fresh row; then apply the field assignments. -/
def upsertProduct (db : DB) (pharmacy_id : Nat) (data : SyncItem) (now : Nat) : DB :=
  match (if truthyStr data.sync_id then
          updateFirst (productSyncQuery pharmacy_id data) (applyProduct data now) db.products
         else none) with
  | some ps => { db with products := ps }
  | none =>
    match (if truthyNat data.id then
            updateFirst (productIdQuery pharmacy_id data) (applyProduct data now) db.products
           else none) with
    | some ps => { db with products := ps }
    | none =>
      { db with
        products := db.products ++ [applyProduct data now (newProduct db.nextProductId pharmacy_id)]
        nextProductId := db.nextProductId + 1 }

/-- `Customer.pharmacy_id == pharmacy_id, Customer.sync_id == sync_id`. -/
def customerSyncQuery (pharmacy_id : Nat) (data : SyncItem) (c : Customer) : Bool :=
  c.pharmacy_id == pharmacy_id && c.sync_id == data.sync_id

/-- `Customer.pharmacy_id == pharmacy_id, Customer.id == data["id"]`. -/
def customerIdQuery (pharmacy_id : Nat) (data : SyncItem) (c : Customer) : Bool :=
  c.pharmacy_id == pharmacy_id && some c.id == data.id

/-- The field assignments of `_upsert_customer` (lines 272-284). -/
def applyCustomer (data : SyncItem) (now : Nat) (c : Customer) : Customer :=
  { c with
    first_name := getOr data.first_name c.first_name
    last_name := getOr data.last_name c.last_name
    email := getOr data.email c.email
    phone := getOr data.phone c.phone
    address := getOr data.address c.address
    city := getOr data.city c.city
    date_of_birth := getOr data.date_of_birth c.date_of_birth
    allergies := getOr data.allergies c.allergies
    medical_notes := getOr data.medical_notes c.medical_notes
    is_active := boolOr true data.is_active c.is_active
    sync_id := pyStrOr data.sync_id c.sync_id
    last_sync_at := some now
    updated_at := now }

/-- `Customer(pharmacy_id=pharmacy_id)` with the autoincrement id `i`. -/
def newCustomer (i pharmacy_id : Nat) : Customer where
  id := i
  pharmacy_id := pharmacy_id
  first_name := none
  last_name := none
  email := none
  phone := none
  address := none
  city := none
  date_of_birth := none
  allergies := none
  medical_notes := none
  is_active := none
  sync_id := none
  last_sync_at := none
  updated_at := 0

/-- `_upsert_customer`: same matching discipline as `_upsert_product`. -/
def upsertCustomer (db : DB) (pharmacy_id : Nat) (data : SyncItem) (now : Nat) : DB :=
  match (if truthyStr data.sync_id then
          updateFirst (customerSyncQuery pharmacy_id data) (applyCustomer data now) db.customers
         else none) with
  | some cs => { db with customers := cs }
  | none =>
    match (if truthyNat data.id then
            updateFirst (customerIdQuery pharmacy_id data) (applyCustomer data now) db.customers
           else none) with
    | some cs => { db with customers := cs }
    | none =>
      { db with
        customers := db.customers ++ [applyCustomer data now (newCustomer db.nextCustomerId pharmacy_id)]
        nextCustomerId := db.nextCustomerId + 1 }

/-- `_upsert_supplier`: line 299 reads `supplier.contact_name` eagerly, as
the default argument of `data.get("contact_name", supplier.contact_name)`.
The Supplier model declares no `contact_name` attribute (the declared column
is `contact_person`) and nothing ever assigns one before that line runs, so
every call — for a freshly created supplier as well as for one matched by
id — raises AttributeError before the upsert completes. The raise aborts
the request before `db.commit()`, so the session is rolled back and no
supplier row is ever matched, mutated or inserted by this endpoint. -/
def upsertSupplier (db : DB) (pharmacy_id : Nat) (data : SyncItem) (now : Nat) :
    Except String DB :=
  .error "AttributeError: contact_name"

/-- `SupplierOrder.pharmacy_id == pharmacy_id, SupplierOrder.id == data["id"]`. -/
def orderIdQuery (pharmacy_id : Nat) (data : SyncItem) (o : SupplierOrder) : Bool :=
  o.pharmacy_id == pharmacy_id && some o.id == data.id

/-- The field assignments of `_upsert_supplier_order` (lines 320-327). -/
def applyOrder (data : SyncItem) (now : Nat) (o : SupplierOrder) : SupplierOrder :=
  { o with
    supplier_id := getOr data.supplier_id o.supplier_id
    expected_delivery_date := getOr data.expected_delivery_date o.expected_delivery_date
    status := getOr data.status o.status
    notes := getOr data.notes o.notes
    tax := numOr data.tax o.tax
    shipping_cost := numOr data.shipping_cost o.shipping_cost
    total_amount := numOr data.total_amount o.total_amount
    last_sync_at := some now
    updated_at := now }

/-- `SupplierOrder(pharmacy_id=pharmacy_id)` with the autoincrement id `i`;
the NOT NULL columns `order_number` and `user_id` are left unassigned. -/
def newOrder (i pharmacy_id : Nat) : SupplierOrder where
  id := i
  pharmacy_id := pharmacy_id
  order_number := none
  user_id := none
  supplier_id := none
  expected_delivery_date := none
  status := none
  notes := none
  tax := none
  shipping_cost := none
  total_amount := none
  last_sync_at := none
  updated_at := 0

/-- `_upsert_supplier_order`: match by local `id` only. -/
def upsertSupplierOrder (db : DB) (pharmacy_id : Nat) (data : SyncItem) (now : Nat) : DB :=
  match (if truthyNat data.id then
          updateFirst (orderIdQuery pharmacy_id data) (applyOrder data now) db.orders
         else none) with
  | some os => { db with orders := os }
  | none =>
    { db with
      orders := db.orders ++ [applyOrder data now (newOrder db.nextOrderId pharmacy_id)]
      nextOrderId := db.nextOrderId + 1 }

/-- `Sale.pharmacy_id == pharmacy_id, Sale.id == data["id"]`. -/
def saleIdQuery (pharmacy_id : Nat) (data : SyncItem) (s : Sale) : Bool :=
  s.pharmacy_id == pharmacy_id && some s.id == data.id

/-- One incoming sale item (lines 359-365). -/
def mkSaleItem (it : SaleItemIn) : SaleItem where
  product_id := it.product_id
  quantity := it.quantity.getD 0
  unit_price := it.unit_price.getD 0
  discount := it.discount.getD 0
  total := it.total.getD 0

/-- The field assignments of `_upsert_sale` (lines 342-367), including the
whole-collection replacement of `items` when `data.get("items")` is truthy. -/
def applySale (data : SyncItem) (now : Nat) (s : Sale) : Sale :=
  { s with
    sale_number := getOr data.sale_number s.sale_number
    customer_id := getOr data.customer_id s.customer_id
    prescription_id := getOr data.prescription_id s.prescription_id
    total_amount := numOr data.total_amount s.total_amount
    discount := numOr data.discount s.discount
    tax := numOr data.tax s.tax
    final_amount := numOr data.final_amount s.final_amount
    payment_method := getOr data.payment_method s.payment_method
    status := getOr data.status s.status
    notes := getOr data.notes s.notes
    sync_id := getOr data.sync_id s.sync_id
    last_sync_at := some now
    updated_at := now
    items := if truthyList data.items then (data.items.getD []).map mkSaleItem else s.items }

/-- `Sale(pharmacy_id=pharmacy_id, user_id=user_id)` with autoincrement id `i`. -/
def newSale (i pharmacy_id user_id : Nat) : Sale where
  id := i
  pharmacy_id := pharmacy_id
  user_id := user_id
  sale_number := none
  customer_id := none
  prescription_id := none
  total_amount := none
  discount := none
  tax := none
  final_amount := none
  payment_method := none
  status := none
  notes := none
  sync_id := none
  items := []
  last_sync_at := none
  updated_at := 0

/-- `_upsert_sale`: match by local `id` only (the inbound `sync_id` is
assigned but never used for matching). -/
def upsertSale (db : DB) (pharmacy_id user_id : Nat) (data : SyncItem) (now : Nat) : DB :=
  match (if truthyNat data.id then
          updateFirst (saleIdQuery pharmacy_id data) (applySale data now) db.sales
         else none) with
  | some ss => { db with sales := ss }
  | none =>
    { db with
      sales := db.sales ++ [applySale data now (newSale db.nextSaleId pharmacy_id user_id)]
      nextSaleId := db.nextSaleId + 1 }

/-! ## The sync coordinator (`sync_data` and friends) -/

/-- `SyncDirection` of `app/models/sync.py`. -/
inductive SyncDirection where
  | upload
  | download
  | bidirectional
deriving DecidableEq, Repr

/-- `SyncStatus` of `app/models/sync.py`. -/
inductive SyncStatus where
  | pending
  | in_progress
  | completed
  | failed
  | conflict
deriving DecidableEq, Repr

/-- A row of the `sync_logs` table (sync-relevant columns). -/
structure SyncLogRow where
  pharmacy_id : Nat
  user_id : Nat
  sync_id : String
  direction : SyncDirection
  status : SyncStatus
  records_uploaded : Nat
  records_downloaded : Nat
  conflicts_count : Nat
  error_message : Option String
  completed_at : Option Nat
deriving DecidableEq, Repr

/-- A row of the `pharmacies` table (sync-relevant columns). -/
structure Pharmacy where
  id : Nat
  last_sync_at : Option Nat
deriving DecidableEq, Repr

/-- `ConflictResolution` of `app/schemas/sync.py`; the `Dict[str, Any]`
version snapshots are modelled as inbound records. -/
structure ConflictResolution where
  entity_type : String
  entity_id : Nat
  local_version : SyncItem
  cloud_version : SyncItem
  resolution : String
deriving DecidableEq, Repr

/-- `SyncRequest` of `app/schemas/sync.py` (after pydantic validation). -/
structure SyncRequest where
  direction : SyncDirection
  entity_types : Option (List String)
  last_sync_at : Option Nat
  conflicts : Option (List ConflictResolution)
deriving DecidableEq, Repr

/-- `SyncResponse` of `app/schemas/sync.py` (the `conflicts` echo field,
always `None` in the handler, is omitted). -/
structure SyncResponse where
  sync_id : String
  status : SyncStatus
  records_uploaded : Nat
  records_downloaded : Nat
  conflicts_count : Nat
  message : String
deriving DecidableEq, Repr

/-- The whole persistent state the sync endpoints touch. -/
structure SyncState where
  db : DB
  pharmacies : List Pharmacy
  sync_logs : List SyncLogRow
deriving DecidableEq, Repr

/-- `_upload_entities`: count the rows of one entity type of one pharmacy
that are dirty relative to the request baseline (`updated_at > baseline` or
`last_sync_at IS NULL`); no filter at all when the baseline is null.
The function only counts: it uploads nothing and mutates nothing. -/
def uploadEntities (db : DB) (pharmacy_id : Nat) (entity_type : String)
    (last_sync_at : Option Nat) : Nat :=
  let since : Nat → Option Nat → Bool := fun updated_at row_last_sync =>
    match last_sync_at with
    | none => true
    | some b => decide (b < updated_at) || decide (row_last_sync = none)
  if entity_type = "products" then
    ((db.products.filter (fun p => p.pharmacy_id == pharmacy_id)).filter
      (fun p => since p.updated_at p.last_sync_at)).length
  else if entity_type = "sales" then
    ((db.sales.filter (fun s => s.pharmacy_id == pharmacy_id)).filter
      (fun s => since s.updated_at s.last_sync_at)).length
  else if entity_type = "customers" then
    ((db.customers.filter (fun c => c.pharmacy_id == pharmacy_id)).filter
      (fun c => since c.updated_at c.last_sync_at)).length
  else if entity_type = "suppliers" then
    ((db.suppliers.filter (fun s => s.pharmacy_id == pharmacy_id)).filter
      (fun s => since s.updated_at s.last_sync_at)).length
  else if entity_type = "orders" then
    ((db.orders.filter (fun o => o.pharmacy_id == pharmacy_id)).filter
      (fun o => since o.updated_at o.last_sync_at)).length
  else 0

/-- `_download_entities`: a stub that fetches nothing and returns 0. -/
def downloadEntities (db : DB) (pharmacy_id : Nat) (entity_type : String)
    (last_sync_at : Option Nat) : Nat :=
  0

/-- `_resolve_conflicts`: counts the conflicts whose `resolution` is one of
`local` / `cloud` / `merge`; it reads and writes no entity row, so the
database is returned unchanged. -/
def resolveConflicts (db : DB) (pharmacy_id : Nat)
    (conflicts : List ConflictResolution) : DB × Nat :=
  (db,
   conflicts.foldl
     (fun resolved c =>
       if c.resolution = "local" then resolved + 1
       else if c.resolution = "cloud" then resolved + 1
       else if c.resolution = "merge" then resolved + 1
       else resolved)
     0)

/-- The phase of `sync_data` inside the `try` block at which a database or
network exception may be raised. -/
inductive SyncPhase where
  | uploadPhase
  | downloadPhase
  | conflictsPhase
deriving DecidableEq, Repr

/-- An injected exception: the phase at which it is raised and `str(e)`. -/
structure SyncExn where
  phase : SyncPhase
  msg : String
deriving DecidableEq, Repr

/-- Whether a given phase of the `try` block actually executes for a
request (the upload loop runs for UPLOAD/BIDIRECTIONAL, the download loop
for DOWNLOAD/BIDIRECTIONAL, conflict handling when `conflicts` is truthy). -/
def phaseRuns (req : SyncRequest) : SyncPhase → Bool
  | .uploadPhase => req.direction == .upload || req.direction == .bidirectional
  | .downloadPhase => req.direction == .download || req.direction == .bidirectional
  | .conflictsPhase => truthyList req.conflicts

/-- The default entity type list of line 48. -/
def defaultEntityTypes : List String :=
  ["products", "sales", "customers", "suppliers", "orders"]

/-- `sync_data` (the `POST /sync/` handler body): create an IN_PROGRESS log
row, run the three phases, then in one commit finalize the log COMPLETED and
set the pharmacy baseline `last_sync_at` to now; on an exception inside the
`try` block, finalize the log FAILED with the error message and re-raise as
an HTTP 500.  `exn` injects an exception at a given phase (`none` = no
database or network call fails). -/
def sync_data (st : SyncState) (pharmacy_id user_id : Nat) (uuid : String)
    (req : SyncRequest) (now : Nat) (exn : Option SyncExn) :
    SyncState × Except String SyncResponse :=
  let log0 : SyncLogRow :=
    { pharmacy_id := pharmacy_id
      user_id := user_id
      sync_id := uuid
      direction := req.direction
      status := .in_progress
      records_uploaded := 0
      records_downloaded := 0
      conflicts_count := 0
      error_message := none
      completed_at := none }
  let failure : Option String :=
    match exn with
    | some e => if phaseRuns req e.phase then some e.msg else none
    | none => none
  match failure with
  | some msg =>
    ({ st with
       sync_logs := st.sync_logs ++
         [{ log0 with status := .failed, error_message := some msg, completed_at := some now }] },
     .error ("Synchronization failed: " ++ msg))
  | none =>
    let entity_types :=
      if truthyList req.entity_types then req.entity_types.getD [] else defaultEntityTypes
    let records_uploaded :=
      if req.direction == .upload || req.direction == .bidirectional then
        (entity_types.map (fun et => uploadEntities st.db pharmacy_id et req.last_sync_at)).sum
      else 0
    let records_downloaded :=
      if req.direction == .download || req.direction == .bidirectional then
        (entity_types.map (fun et => downloadEntities st.db pharmacy_id et req.last_sync_at)).sum
      else 0
    let resolved :=
      if truthyList req.conflicts then resolveConflicts st.db pharmacy_id (req.conflicts.getD [])
      else (st.db, 0)
    ({ db := resolved.1
       pharmacies := st.pharmacies.map
         (fun ph => if ph.id = pharmacy_id then { ph with last_sync_at := some now } else ph)
       sync_logs := st.sync_logs ++
         [{ log0 with
            status := .completed
            records_uploaded := records_uploaded
            records_downloaded := records_downloaded
            conflicts_count := resolved.2
            completed_at := some now }] },
     .ok
       { sync_id := uuid
         status := .completed
         records_uploaded := records_uploaded
         records_downloaded := records_downloaded
         conflicts_count := resolved.2
         message := "Synchronization completed successfully" })

/-- The raw body of `POST /sync/` before pydantic validation: `direction`
is an arbitrary string. -/
structure RawSyncRequest where
  direction : String
  entity_types : Option (List String)
  last_sync_at : Option Nat
  conflicts : Option (List ConflictResolution)
deriving DecidableEq, Repr

/-- Pydantic validation of `SyncRequest.direction : SyncDirection`. -/
def parse_direction (s : String) : Option SyncDirection :=
  if s = "upload" then some .upload
  else if s = "download" then some .download
  else if s = "bidirectional" then some .bidirectional
  else none

/-- The `POST /sync/` endpoint including the pydantic boundary: an unknown
direction is rejected with a 422 validation error before the handler (and
hence before any log row) is reached; `entity_types` entries are plain
strings and are not validated. -/
def sync_endpoint (st : SyncState) (pharmacy_id user_id : Nat) (uuid : String)
    (raw : RawSyncRequest) (now : Nat) (exn : Option SyncExn) :
    SyncState × Except String SyncResponse :=
  match parse_direction raw.direction with
  | none => (st, .error "validation error: direction is not a valid SyncDirection")
  | some dir =>
    sync_data st pharmacy_id user_id uuid
      { direction := dir
        entity_types := raw.entity_types
        last_sync_at := raw.last_sync_at
        conflicts := raw.conflicts }
      now exn

/-- `SyncUploadPayload` of `app/schemas/sync.py`. -/
structure SyncUploadPayload where
  entity_type : String
  items : List SyncItem
  last_sync_at : Option Nat
deriving DecidableEq, Repr

/-- The response of `POST /sync/upload`. -/
structure UploadResult where
  status : String
  processed : Nat
deriving DecidableEq, Repr

/-! ## The schema constraints enforced at `db.commit()`

The tables are created from the SQLAlchemy models (`Base.metadata.create_all`),
so the UNIQUE and NOT NULL column declarations of `app/models/*` are enforced
by the database when `upload_data` commits. The checks below cover the
declared constraints of the five synced tables restricted to the modelled
columns, except enum columns with a Python-side default (`payment_method`,
`status`, `unit`) and foreign-key existence, which no claim and no fixture
depends on. -/

/-- NOT NULL columns of `products` among the columns the upsert writes:
`name`, `quantity`, `min_quantity`, `purchase_price`, `selling_price`,
`is_active`, `is_prescription_required`. -/
def productRowOk (p : Product) : Bool :=
  p.name ≠ none && p.quantity ≠ none && p.min_quantity ≠ none &&
  p.purchase_price ≠ none && p.selling_price ≠ none &&
  p.is_active ≠ none && p.is_prescription_required ≠ none

/-- NOT NULL columns of `customers`: `first_name`, `last_name`, `is_active`. -/
def customerRowOk (c : Customer) : Bool :=
  c.first_name ≠ none && c.last_name ≠ none && c.is_active ≠ none

/-- NOT NULL columns of `suppliers`: `name`, `is_active`. -/
def supplierRowOk (s : Supplier) : Bool :=
  s.name ≠ none && s.is_active ≠ none

/-- NOT NULL columns of `supplier_orders`: `order_number`, `user_id`,
`supplier_id`, `tax`, `shipping_cost`, `total_amount`. -/
def orderRowOk (o : SupplierOrder) : Bool :=
  o.order_number ≠ none && o.user_id ≠ none && o.supplier_id ≠ none &&
  o.tax ≠ none && o.shipping_cost ≠ none && o.total_amount ≠ none

/-- NOT NULL columns of `sales` (`sale_number`, the four amounts) and of
`sale_items` (`product_id`). -/
def saleRowOk (s : Sale) : Bool :=
  s.sale_number ≠ none && s.total_amount ≠ none && s.discount ≠ none &&
  s.tax ≠ none && s.final_amount ≠ none &&
  s.items.all (fun it => it.product_id ≠ none)

/-- The non-null values of a nullable UNIQUE column are pairwise distinct. -/
def uniqueSomes {β : Type} [DecidableEq β] (vs : List (Option β)) : Bool :=
  decide (vs.filterMap id).Nodup

/-- The UNIQUE / NOT NULL constraints of the five synced tables:
`products.sync_id`, `products.barcode`, `customers.sync_id`,
`supplier_orders.order_number`, `sales.sync_id` and `sales.sale_number` are
UNIQUE, and every row satisfies its NOT NULL columns. -/
def dbConsistent (db : DB) : Bool :=
  uniqueSomes (db.products.map Product.sync_id) &&
  uniqueSomes (db.products.map Product.barcode) &&
  db.products.all productRowOk &&
  uniqueSomes (db.customers.map Customer.sync_id) &&
  db.customers.all customerRowOk &&
  db.suppliers.all supplierRowOk &&
  uniqueSomes (db.orders.map SupplierOrder.order_number) &&
  db.orders.all orderRowOk &&
  uniqueSomes (db.sales.map Sale.sync_id) &&
  uniqueSomes (db.sales.map Sale.sale_number) &&
  db.sales.all saleRowOk

/-- `db.commit()` at the end of `upload_data`: a session with no net change
issues no SQL and succeeds trivially; otherwise the INSERTs/UPDATEs commit
only if the resulting state satisfies the schema constraints, else the
database raises IntegrityError and SQLAlchemy rolls the session back. -/
def commitSession (old new : DB) : Option String :=
  if new = old then none
  else if dbConsistent new then none
  else some "IntegrityError"

/-- The body of the `for item in items` loop of `upload_data`: dispatch one
item to the upserter of its entity type and count it as processed; items of
an unknown entity type are skipped by the `else: continue` branch; an
exception raised by an upserter (the supplier AttributeError) aborts the
loop and the request. -/
def uploadStep (pharmacy_id user_id : Nat) (entity_type : String) (now : Nat) :
    DB × Nat → SyncItem → Except String (DB × Nat) := fun acc item =>
  if entity_type = "products" then
    .ok (upsertProduct acc.1 pharmacy_id item now, acc.2 + 1)
  else if entity_type = "customers" then
    .ok (upsertCustomer acc.1 pharmacy_id item now, acc.2 + 1)
  else if entity_type = "suppliers" then
    match upsertSupplier acc.1 pharmacy_id item now with
    | .ok db => .ok (db, acc.2 + 1)
    | .error e => .error e
  else if entity_type = "orders" then
    .ok (upsertSupplierOrder acc.1 pharmacy_id item now, acc.2 + 1)
  else if entity_type = "sales" then
    .ok (upsertSale acc.1 pharmacy_id user_id item now, acc.2 + 1)
  else .ok acc

/-- The entity types `upload_data` dispatches on. -/
def knownUploadEntityTypes : List String :=
  ["products", "customers", "suppliers", "orders", "sales"]

/-- `upload_data` (the `POST /sync/upload` handler): run the loop over the
items, then `db.commit()`. An exception in the loop or an IntegrityError at
commit rolls the session back (the persistent state stays the input state)
and surfaces as an HTTP 500; otherwise the new state is committed and the
number of processed items reported. -/
def upload_data (db : DB) (pharmacy_id user_id : Nat)
    (payload : SyncUploadPayload) (now : Nat) : DB × Except String UploadResult :=
  match payload.items.foldlM (uploadStep pharmacy_id user_id payload.entity_type now) (db, 0) with
  | .error e => (db, .error e)
  | .ok res =>
    match commitSession db res.1 with
    | some e => (db, .error e)
    | none => (res.1, .ok { status := "ok", processed := res.2 })

/-! ## Lemmas about `updateFirst` -/

theorem updateFirst_eq_none {α : Type} {p : α → Bool} {f : α → α} {l : List α} :
    updateFirst p f l = none ↔ ∀ x ∈ l, p x = false := by
  induction l with
  | nil => simp [updateFirst]
  | cons z zs ih =>
    by_cases hz : p z = true
    · simp [updateFirst, hz]
    · have hz' : p z = false := by simpa using hz
      simp [updateFirst, hz', Option.map_eq_none', ih, List.forall_mem_cons]

theorem updateFirst_eq_some {α : Type} {p : α → Bool} {f : α → α} {l l' : List α}
    (h : updateFirst p f l = some l') :
    ∃ a x b, l = a ++ x :: b ∧ (∀ y ∈ a, p y = false) ∧ p x = true ∧ l' = a ++ f x :: b := by
  induction l generalizing l' with
  | nil => simp [updateFirst] at h
  | cons z zs ih =>
    by_cases hz : p z = true
    · have h' : f z :: zs = l' := by simpa [updateFirst, hz] using h
      exact ⟨[], z, zs, rfl, by simp, hz, h'.symm⟩
    · have hz' : p z = false := by simpa using hz
      have h' : ∃ m, updateFirst p f zs = some m ∧ z :: m = l' := by
        simpa [updateFirst, hz', Option.map_eq_some'] using h
      obtain ⟨m, hm, rfl⟩ := h'
      obtain ⟨a, x, b, rfl, ha, hx, rfl⟩ := ih hm
      refine ⟨z :: a, x, b, rfl, ?_, hx, rfl⟩
      intro y hy
      rcases List.mem_cons.mp hy with rfl | hy'
      · exact hz'
      · exact ha y hy'

theorem updateFirst_at_first_match {α : Type} (p : α → Bool) (f : α → α) (a : List α) (x : α)
    (b : List α) (ha : ∀ y ∈ a, p y = false) (hx : p x = true) :
    updateFirst p f (a ++ x :: b) = some (a ++ f x :: b) := by
  induction a with
  | nil => simp [updateFirst, hx]
  | cons z zs ih =>
    have hz : p z = false := ha z (by simp)
    have ih' := ih (fun y hy => ha y (by simp [hy]))
    simp [updateFirst, hz, ih']

/-- A list of the shape `a ++ f x :: b` in which the updated element still
matches and `f` is idempotent is a fixpoint of `updateFirst`. -/
theorem updateFirst_self {α : Type} {q : α → Bool} {f : α → α} (a : List α) (x : α)
    (b : List α) (ha : ∀ y ∈ a, q y = false) (hx : q (f x) = true) (hf : f (f x) = f x) :
    updateFirst q f (a ++ f x :: b) = some (a ++ f x :: b) := by
  rw [updateFirst_at_first_match q f a (f x) b ha hx, hf]

theorem updateFirst_length {α : Type} {p : α → Bool} {f : α → α} {l l' : List α}
    (h : updateFirst p f l = some l') : l'.length = l.length := by
  obtain ⟨a, x, b, rfl, -, -, rfl⟩ := updateFirst_eq_some h
  simp

theorem updateFirst_isSome {α : Type} {p : α → Bool} {f : α → α} {l : List α} :
    (updateFirst p f l).isSome = true ↔ ∃ x ∈ l, p x = true := by
  rw [← Option.ne_none_iff_isSome, ne_eq, updateFirst_eq_none]
  push_neg
  simp

theorem updateFirst_forall₂ {α : Type} {p : α → Bool} {f : α → α} {l l' : List α}
    (h : updateFirst p f l = some l') :
    List.Forall₂ (fun x y => y = x ∨ y = f x) l l' := by
  obtain ⟨a, x, b, rfl, -, -, rfl⟩ := updateFirst_eq_some h
  clear h
  induction a with
  | nil => exact List.Forall₂.cons (Or.inr rfl) (List.forall₂_same.mpr fun y _ => Or.inl rfl)
  | cons z zs ih => exact List.Forall₂.cons (Or.inl rfl) ih

/-! ## Idempotence of the field merges -/

theorem getOr_getOr {α : Type} (d c : Option α) : getOr d (getOr d c) = getOr d c := by
  cases d <;> rfl

theorem numOr_numOr (d c : Option Int) : numOr d (numOr d c) = numOr d c := by
  cases d <;> rfl

theorem boolOr_boolOr (dflt : Bool) (d c : Option Bool) :
    boolOr dflt d (boolOr dflt d c) = boolOr dflt d c := by
  cases d <;> rfl

theorem pyStrOr_pyStrOr (d c : Option String) : pyStrOr d (pyStrOr d c) = pyStrOr d c := by
  by_cases h : truthyStr d <;> simp [pyStrOr, h]

theorem applyProduct_applyProduct (data : SyncItem) (now : Nat) (p : Product) :
    applyProduct data now (applyProduct data now p) = applyProduct data now p := by
  simp [applyProduct, getOr_getOr, numOr_numOr, boolOr_boolOr, pyStrOr_pyStrOr]

theorem applyCustomer_applyCustomer (data : SyncItem) (now : Nat) (c : Customer) :
    applyCustomer data now (applyCustomer data now c) = applyCustomer data now c := by
  simp [applyCustomer, getOr_getOr, numOr_numOr, boolOr_boolOr, pyStrOr_pyStrOr]

theorem pyStrOr_of_truthy {d c : Option String} (h : truthyStr d = true) :
    pyStrOr d c = d := by
  simp [pyStrOr, h]

/-! ## Idempotence of the product and customer upserts -/

theorem productSyncQuery_applyProduct {pid : Nat} {data : SyncItem} (now : Nat)
    (h : truthyStr data.sync_id = true) (p : Product) (hp : p.pharmacy_id = pid) :
    productSyncQuery pid data (applyProduct data now p) = true := by
  simp [productSyncQuery, applyProduct, pyStrOr_of_truthy h, hp]

theorem productSyncQuery_pharmacy {pid : Nat} {data : SyncItem} {p : Product}
    (h : productSyncQuery pid data p = true) : p.pharmacy_id = pid := by
  simp only [productSyncQuery, Bool.and_eq_true, beq_iff_eq] at h
  exact h.1

theorem productIdQuery_pharmacy {pid : Nat} {data : SyncItem} {p : Product}
    (h : productIdQuery pid data p = true) : p.pharmacy_id = pid := by
  simp only [productIdQuery, Bool.and_eq_true, beq_iff_eq] at h
  exact h.1

theorem upsertProduct_idem (db : DB) (pid : Nat) (data : SyncItem) (now : Nat)
    (h : truthyStr data.sync_id = true) :
    upsertProduct (upsertProduct db pid data now) pid data now =
      upsertProduct db pid data now := by
  rcases hs : updateFirst (productSyncQuery pid data) (applyProduct data now) db.products
    with _ | l₁
  · have hall : ∀ y ∈ db.products, productSyncQuery pid data y = false :=
      updateFirst_eq_none.mp hs
    by_cases htr : truthyNat data.id = true
    · rcases hid : updateFirst (productIdQuery pid data) (applyProduct data now) db.products
        with _ | l₂
      · -- no match at all: pass 1 inserts, pass 2 finds the inserted row by sync_id
        have hq : productSyncQuery pid data
            (applyProduct data now (newProduct db.nextProductId pid)) = true :=
          productSyncQuery_applyProduct now h _ rfl
        have hfix := updateFirst_self db.products (newProduct db.nextProductId pid) [] hall hq
          (applyProduct_applyProduct data now _)
        simp [upsertProduct, h, htr, hs, hid, hfix]
      · -- matched by local id: pass 2 finds the updated row by sync_id
        obtain ⟨a, x, b, hsplit, ha, hx, rfl⟩ := updateFirst_eq_some hid
        have hq : productSyncQuery pid data (applyProduct data now x) = true :=
          productSyncQuery_applyProduct now h x (productIdQuery_pharmacy hx)
        have ha' : ∀ y ∈ a, productSyncQuery pid data y = false := by
          intro y hy
          exact hall y (by rw [hsplit]; exact List.mem_append_left _ hy)
        have hfix := updateFirst_self a x b ha' hq (applyProduct_applyProduct data now x)
        simp [upsertProduct, h, htr, hs, hid, hfix]
    · -- no sync match and no usable id: pass 1 inserts
      have htr' : truthyNat data.id = false := by simpa using htr
      have hq : productSyncQuery pid data
          (applyProduct data now (newProduct db.nextProductId pid)) = true :=
        productSyncQuery_applyProduct now h _ rfl
      have hfix := updateFirst_self db.products (newProduct db.nextProductId pid) [] hall hq
        (applyProduct_applyProduct data now _)
      simp [upsertProduct, h, htr', hs, hfix]
  · -- matched by sync_id: pass 2 finds the same row again
    obtain ⟨a, x, b, hsplit, ha, hx, rfl⟩ := updateFirst_eq_some hs
    have hq : productSyncQuery pid data (applyProduct data now x) = true :=
      productSyncQuery_applyProduct now h x (productSyncQuery_pharmacy hx)
    have hfix := updateFirst_self a x b ha hq (applyProduct_applyProduct data now x)
    simp [upsertProduct, h, hs, hfix]

theorem customerSyncQuery_applyCustomer {pid : Nat} {data : SyncItem} (now : Nat)
    (h : truthyStr data.sync_id = true) (c : Customer) (hc : c.pharmacy_id = pid) :
    customerSyncQuery pid data (applyCustomer data now c) = true := by
  simp [customerSyncQuery, applyCustomer, pyStrOr_of_truthy h, hc]

theorem customerSyncQuery_pharmacy {pid : Nat} {data : SyncItem} {c : Customer}
    (h : customerSyncQuery pid data c = true) : c.pharmacy_id = pid := by
  simp only [customerSyncQuery, Bool.and_eq_true, beq_iff_eq] at h
  exact h.1

theorem customerIdQuery_pharmacy {pid : Nat} {data : SyncItem} {c : Customer}
    (h : customerIdQuery pid data c = true) : c.pharmacy_id = pid := by
  simp only [customerIdQuery, Bool.and_eq_true, beq_iff_eq] at h
  exact h.1

theorem upsertCustomer_idem (db : DB) (pid : Nat) (data : SyncItem) (now : Nat)
    (h : truthyStr data.sync_id = true) :
    upsertCustomer (upsertCustomer db pid data now) pid data now =
      upsertCustomer db pid data now := by
  rcases hs : updateFirst (customerSyncQuery pid data) (applyCustomer data now) db.customers
    with _ | l₁
  · have hall : ∀ y ∈ db.customers, customerSyncQuery pid data y = false :=
      updateFirst_eq_none.mp hs
    by_cases htr : truthyNat data.id = true
    · rcases hid : updateFirst (customerIdQuery pid data) (applyCustomer data now) db.customers
        with _ | l₂
      · have hq : customerSyncQuery pid data
            (applyCustomer data now (newCustomer db.nextCustomerId pid)) = true :=
          customerSyncQuery_applyCustomer now h _ rfl
        have hfix := updateFirst_self db.customers (newCustomer db.nextCustomerId pid) [] hall hq
          (applyCustomer_applyCustomer data now _)
        simp [upsertCustomer, h, htr, hs, hid, hfix]
      · obtain ⟨a, x, b, hsplit, ha, hx, rfl⟩ := updateFirst_eq_some hid
        have hq : customerSyncQuery pid data (applyCustomer data now x) = true :=
          customerSyncQuery_applyCustomer now h x (customerIdQuery_pharmacy hx)
        have ha' : ∀ y ∈ a, customerSyncQuery pid data y = false := by
          intro y hy
          exact hall y (by rw [hsplit]; exact List.mem_append_left _ hy)
        have hfix := updateFirst_self a x b ha' hq (applyCustomer_applyCustomer data now x)
        simp [upsertCustomer, h, htr, hs, hid, hfix]
    · have htr' : truthyNat data.id = false := by simpa using htr
      have hq : customerSyncQuery pid data
          (applyCustomer data now (newCustomer db.nextCustomerId pid)) = true :=
        customerSyncQuery_applyCustomer now h _ rfl
      have hfix := updateFirst_self db.customers (newCustomer db.nextCustomerId pid) [] hall hq
        (applyCustomer_applyCustomer data now _)
      simp [upsertCustomer, h, htr', hs, hfix]
  · obtain ⟨a, x, b, hsplit, ha, hx, rfl⟩ := updateFirst_eq_some hs
    have hq : customerSyncQuery pid data (applyCustomer data now x) = true :=
      customerSyncQuery_applyCustomer now h x (customerSyncQuery_pharmacy hx)
    have hfix := updateFirst_self a x b ha hq (applyCustomer_applyCustomer data now x)
    simp [upsertCustomer, h, hs, hfix]

/-! ## Lemmas about the upload loop -/

theorem exceptBind_ok {α β : Type} (x : α) (f : α → Except String β) :
    (Except.ok x >>= f) = f x := rfl

theorem exceptBind_error {α β : Type} (e : String) (f : α → Except String β) :
    ((Except.error e : Except String α) >>= f) = Except.error e := rfl

/-- A loop step that upserts and counts: the loop succeeds and processes
every item. -/
theorem foldlM_uploadStep_count {step : DB × Nat → SyncItem → Except String (DB × Nat)}
    {f : DB → SyncItem → DB}
    (hstep : ∀ (d : DB) (n : Nat) (it : SyncItem), step (d, n) it = .ok (f d it, n + 1)) :
    ∀ (l : List SyncItem) (db : DB) (n : Nat),
      List.foldlM step (db, n) l = Except.ok (l.foldl f db, n + l.length) := by
  intro l
  induction l with
  | nil => intro db n; rfl
  | cons i rest ih =>
    intro db n
    rw [List.foldlM_cons, hstep, exceptBind_ok, ih, List.foldl_cons, List.length_cons]
    have h : n + 1 + rest.length = n + (rest.length + 1) := by omega
    rw [h]

/-- A loop step that always raises aborts a non-empty loop at once. -/
theorem foldlM_uploadStep_raise {step : DB × Nat → SyncItem → Except String (DB × Nat)}
    {e : String} (hstep : ∀ (a : DB × Nat) (it : SyncItem), step a it = .error e)
    (i : SyncItem) (rest : List SyncItem) (a : DB × Nat) :
    List.foldlM step a (i :: rest) = .error e := by
  rw [List.foldlM_cons, hstep, exceptBind_error]

/-- A loop step that skips every item leaves the accumulator unchanged. -/
theorem foldlM_uploadStep_skip {step : DB × Nat → SyncItem → Except String (DB × Nat)}
    (hstep : ∀ (a : DB × Nat) (it : SyncItem), step a it = .ok a) :
    ∀ (l : List SyncItem) (a : DB × Nat), List.foldlM step a l = .ok a := by
  intro l
  induction l with
  | nil => intro a; rfl
  | cons i rest ih =>
    intro a
    rw [List.foldlM_cons, hstep, exceptBind_ok]
    exact ih a

theorem uploadStep_of_unknown (pid uid : Nat) (et : String) (now : Nat)
    (h : et ∉ knownUploadEntityTypes) :
    ∀ (a : DB × Nat) (i : SyncItem), uploadStep pid uid et now a i = .ok a := by
  intro a i
  obtain ⟨h1, h2, h3, h4, h5⟩ : et ≠ "products" ∧ et ≠ "customers" ∧ et ≠ "suppliers" ∧
      et ≠ "orders" ∧ et ≠ "sales" := by
    simpa [knownUploadEntityTypes] using h
  simp [uploadStep, h1, h2, h3, h4, h5]

/-- The no-change commit issues no SQL and succeeds. -/
theorem commitSession_self (db : DB) : commitSession db db = none := by
  simp [commitSession]

/-- `upload_data` when the loop succeeds and the commit passes. -/
theorem upload_data_ok {db newdb : DB} {pid uid now n : Nat} (payload : SyncUploadPayload)
    (hfold : List.foldlM (uploadStep pid uid payload.entity_type now) (db, 0) payload.items =
      Except.ok (newdb, n))
    (hcs : commitSession db newdb = none) :
    upload_data db pid uid payload now =
      (newdb, Except.ok { status := "ok", processed := n }) := by
  rw [upload_data.eq_def, hfold]
  simp [hcs]

/-- `upload_data` when the loop succeeds but the commit raises. -/
theorem upload_data_integrity {db newdb : DB} {pid uid now n : Nat} {e : String}
    (payload : SyncUploadPayload)
    (hfold : List.foldlM (uploadStep pid uid payload.entity_type now) (db, 0) payload.items =
      Except.ok (newdb, n))
    (hcs : commitSession db newdb = some e) :
    upload_data db pid uid payload now = (db, Except.error e) := by
  rw [upload_data.eq_def, hfold]
  simp [hcs]

/-- `upload_data` when an upserter raises inside the loop. -/
theorem upload_data_raise {db : DB} {pid uid now : Nat} {e : String}
    (payload : SyncUploadPayload)
    (hfold : List.foldlM (uploadStep pid uid payload.entity_type now) (db, 0) payload.items =
      Except.error e) :
    upload_data db pid uid payload now = (db, Except.error e) := by
  rw [upload_data.eq_def, hfold]

/-- A supplier-order row violating a NOT NULL column breaks consistency. -/
theorem dbConsistent_false_of_orders_rows {db : DB}
    (h : db.orders.all orderRowOk = false) : dbConsistent db = false := by
  cases hdc : dbConsistent db
  · rfl
  · have hx := hdc
    simp only [dbConsistent, Bool.and_eq_true] at hx
    have h2 : db.orders.all orderRowOk = true := by tauto
    rw [h] at h2
    simp at h2

/-! ## The claims -/

/-- C10: for every upload batch whose entity type is not one of products,
customers, suppliers, orders, or sales, `upload_data` raises no error (the
loop skips every item and the commit of the unchanged session is trivial),
changes no table, and reports 0 processed items no matter how many items
were sent. -/
theorem C10_unknown_entity_type_upload_noop
    (db : DB) (pharmacy_id user_id : Nat) (payload : SyncUploadPayload) (now : Nat)
    (h : payload.entity_type ∉ knownUploadEntityTypes) :
    upload_data db pharmacy_id user_id payload now =
      (db, Except.ok { status := "ok", processed := 0 }) := by
  have hfix := foldlM_uploadStep_skip
    (uploadStep_of_unknown pharmacy_id user_id payload.entity_type now h) payload.items (db, 0)
  simp [upload_data, hfix, commitSession_self]

/-- C10 witness: a batch of 3 items of entity type `bogus` is accepted,
leaves the database unchanged, and reports 0 processed items. -/
theorem C10_witness :
    upload_data emptyDB 1 1
        { entity_type := "bogus", items := [item0, item0, item0], last_sync_at := none } 4 =
      (emptyDB, Except.ok { status := "ok", processed := 0 }) :=
  C10_unknown_entity_type_upload_noop emptyDB 1 1
    { entity_type := "bogus", items := [item0, item0, item0], last_sync_at := none } 4
    (by decide)

/-- Database and conflict record for the C8 counterexample: one product
whose name is `old`, and a `cloud` resolution whose remote snapshot carries
name `new`. -/
def C8_db : DB :=
  { emptyDB with products := [{ newProduct 1 1 with name := some "old" }], nextProductId := 2 }

def C8_conflict : ConflictResolution :=
  { entity_type := "product"
    entity_id := 1
    local_version := { item0 with id := some 1, name := some "old" }
    cloud_version := { item0 with id := some 1, name := some "new" }
    resolution := "cloud" }

/-- C8 counterexample: a `cloud` resolution does not update the local
record — `_resolve_conflicts` returns the database unchanged (name still
`old`), although applying the upserter to the `remote_version` snapshot, as
the claim states, would set the name to `new`. -/
theorem C8_counterexample_cloud_resolution_no_mutation :
    (resolveConflicts C8_db 1 [C8_conflict]).1 = C8_db
    ∧ (resolveConflicts C8_db 1 [C8_conflict]).2 = 1
    ∧ C8_db.products.map Product.name = [some "old"]
    ∧ (upsertProduct C8_db 1 C8_conflict.cloud_version 9).products.map Product.name =
        [some "new"] := by
  decide

/-- C8 amended: conflict handling only counts — every conflict whose
resolution is `local`, `cloud` or `merge` increments the resolved counter;
no record is mutated under any policy, nothing is marked resolved, and
re-applying the same resolutions is trivially a no-op on the database. -/
theorem C8_amended_count_only (db : DB) (pharmacy_id : Nat)
    (conflicts : List ConflictResolution) :
    (resolveConflicts db pharmacy_id conflicts).1 = db
    ∧ (resolveConflicts db pharmacy_id conflicts).2 =
        (conflicts.filter (fun c =>
          c.resolution == "local" || c.resolution == "cloud" || c.resolution == "merge")).length
    ∧ resolveConflicts (resolveConflicts db pharmacy_id conflicts).1 pharmacy_id conflicts =
        resolveConflicts db pharmacy_id conflicts := by
  refine ⟨rfl, ?_, rfl⟩
  have key : ∀ (cs : List ConflictResolution) (n : Nat),
      cs.foldl
        (fun resolved c =>
          if c.resolution = "local" then resolved + 1
          else if c.resolution = "cloud" then resolved + 1
          else if c.resolution = "merge" then resolved + 1
          else resolved) n =
      n + (cs.filter (fun c =>
        c.resolution == "local" || c.resolution == "cloud" || c.resolution == "merge")).length := by
    intro cs
    induction cs with
    | nil => intro n; simp
    | cons c rest ih =>
      intro n
      rw [List.foldl_cons, ih, List.filter_cons]
      by_cases h1 : c.resolution = "local"
      · simp [h1]
        omega
      · by_cases h2 : c.resolution = "cloud"
        · simp [h1, h2]
          omega
        · by_cases h3 : c.resolution = "merge"
          · simp [h1, h2, h3]
            omega
          · simp [h1, h2, h3]
  simpa using key conflicts 0

/-- The C3 counterexample fixtures: one sale payload carrying a `sync_id`
but no local id (with the NOT NULL columns `sale_number`, `payment_method`,
`status` supplied so the first insert commits cleanly), uploaded twice. -/
def C3_saleItem : SyncItem :=
  { item0 with
    sync_id := some "S1"
    sale_number := some "V-1"
    payment_method := some "cash"
    status := some "completed" }

def C3_up1 : DB × Except String UploadResult :=
  upload_data emptyDB 1 1 { entity_type := "sales", items := [C3_saleItem], last_sync_at := none } 5

def C3_up2 : DB × Except String UploadResult :=
  upload_data C3_up1.1 1 1 { entity_type := "sales", items := [C3_saleItem], last_sync_at := none } 5

/-- C3 counterexample: the sale upserter never matches on `sync_id`, so the
identical re-upload attempts a duplicate INSERT; the commit violates
UNIQUE(sync_id)/UNIQUE(sale_number), raises IntegrityError and rolls back.
The second call therefore reports an HTTP 500 instead of the full batch
size (`processed = 1`) that the claim requires for every entity type. -/
theorem C3_counterexample_sale_duplicate :
    C3_up1.1.sales.length = 1
    ∧ C3_up1.2 = Except.ok { status := "ok", processed := 1 }
    ∧ C3_up2.1 = C3_up1.1
    ∧ C3_up2.2 = Except.error "IntegrityError" :=
  ⟨rfl, rfl, rfl, rfl⟩

/-- C3 amended: the upsert is idempotent for products and customers whose
inbound record carries a truthy `sync_id`: applying the identical record
twice (at one timestamp) produces the same final state as applying it once,
hence no duplicate row; every successful products upload reports the full
batch size as processed; and re-uploading an identical single-record
products batch after a successful call succeeds again with the state
unchanged and `processed = 1`. -/
theorem C3_amended_product_customer_idempotent
    (db : DB) (pharmacy_id user_id : Nat) (data : SyncItem) (now : Nat)
    (h : truthyStr data.sync_id = true) :
    upsertProduct (upsertProduct db pharmacy_id data now) pharmacy_id data now =
        upsertProduct db pharmacy_id data now
    ∧ upsertCustomer (upsertCustomer db pharmacy_id data now) pharmacy_id data now =
        upsertCustomer db pharmacy_id data now
    ∧ (∀ (db' : DB) (items : List SyncItem) (r : UploadResult),
        (upload_data db' pharmacy_id user_id
          { entity_type := "products", items := items, last_sync_at := none } now).2 =
          Except.ok r →
        r.processed = items.length)
    ∧ (∀ (db₀ db₁ : DB) (r : UploadResult),
        upload_data db₀ pharmacy_id user_id
            { entity_type := "products", items := [data], last_sync_at := none } now =
          (db₁, Except.ok r) →
        upload_data db₁ pharmacy_id user_id
            { entity_type := "products", items := [data], last_sync_at := none } now =
          (db₁, Except.ok { status := "ok", processed := 1 })) := by
  have hstep : ∀ (d : DB) (n : Nat) (it : SyncItem),
      uploadStep pharmacy_id user_id "products" now (d, n) it =
        .ok (upsertProduct d pharmacy_id it now, n + 1) := by
    intro d n it
    simp [uploadStep]
  refine ⟨upsertProduct_idem db pharmacy_id data now h,
    upsertCustomer_idem db pharmacy_id data now h, ?_, ?_⟩
  · intro db' items r hr
    have hfold := foldlM_uploadStep_count hstep items db' 0
    rcases hcs : commitSession db'
        (items.foldl (fun d it => upsertProduct d pharmacy_id it now) db') with _ | e
    · rw [upload_data_ok _ hfold hcs] at hr
      have h2 : Except.ok ({ status := "ok", processed := 0 + items.length } : UploadResult) =
          Except.ok r := hr
      have h3 := Except.ok.inj h2
      rw [← h3]
      simp
    · rw [upload_data_integrity _ hfold hcs] at hr
      simp at hr
  · intro db₀ db₁ r hr
    have hfold := foldlM_uploadStep_count hstep [data] db₀ 0
    rcases hcs : commitSession db₀
        ([data].foldl (fun d it => upsertProduct d pharmacy_id it now) db₀) with _ | e
    · rw [upload_data_ok _ hfold hcs] at hr
      have hdb : [data].foldl (fun d it => upsertProduct d pharmacy_id it now) db₀ = db₁ :=
        congrArg Prod.fst hr
      have hstate : [data].foldl (fun d it => upsertProduct d pharmacy_id it now) db₁ = db₁ := by
        rw [← hdb]
        exact upsertProduct_idem db₀ pharmacy_id data now h
      have hcs2 : commitSession db₁
          ([data].foldl (fun d it => upsertProduct d pharmacy_id it now) db₁) = none := by
        rw [hstate]
        exact commitSession_self db₁
      have hfold2 := foldlM_uploadStep_count hstep [data] db₁ 0
      rw [upload_data_ok _ hfold2 hcs2, hstate]
      simp
    · rw [upload_data_integrity _ hfold hcs] at hr
      simp at hr

/-- The product payload of the C3 witness; `name` is supplied so the insert
satisfies NOT NULL(name). -/
def C3_prodItem : SyncItem := { item0 with sync_id := some "P1", name := some "Aspirin" }

def C3_prodPayload : SyncUploadPayload :=
  { entity_type := "products", items := [C3_prodItem], last_sync_at := none }

/-- C3 witness: the amended idempotence at a concrete product payload with
`sync_id = "P1"`: the double upsert collapses, and re-uploading the same
single-record batch after a successful call succeeds with `processed = 1`
and the state unchanged. -/
theorem C3_witness :
    upsertProduct (upsertProduct emptyDB 1 C3_prodItem 5) 1 C3_prodItem 5 =
        upsertProduct emptyDB 1 C3_prodItem 5
    ∧ upload_data (upload_data emptyDB 1 1 C3_prodPayload 5).1 1 1 C3_prodPayload 5 =
        ((upload_data emptyDB 1 1 C3_prodPayload 5).1,
          Except.ok { status := "ok", processed := 1 }) := by
  have h := C3_amended_product_customer_idempotent emptyDB 1 1 C3_prodItem 5 (by decide)
  exact ⟨h.1, h.2.2.2 emptyDB (upload_data emptyDB 1 1 C3_prodPayload 5).1
    { status := "ok", processed := 1 } rfl⟩

/-- The C5 counterexample fixtures: an existing, fully populated sale with
`sync_id = "S1"` (a state reachable by a committed insert) and an inbound
sale record carrying that `sync_id` but no local id. -/
def C5_sale : Sale :=
  { newSale 7 1 1 with
    sync_id := some "S1"
    sale_number := some "SN-7"
    total_amount := some 0
    discount := some 0
    tax := some 0
    final_amount := some 0 }

def C5_db : DB := { emptyDB with sales := [C5_sale], nextSaleId := 8 }

def C5_item : SyncItem := { item0 with sync_id := some "S1", total_amount := some 5 }

/-- C5 counterexample: although a sale with the supplied non-null `sync_id`
exists, the sale upserter inserts a new pending row instead of matching it
(sales are matched by local id only); the duplicate `sync_id` then makes the
commit raise IntegrityError, so the request fails and the state is rolled
back — the inbound `sync_id` is never used to match the target row. -/
theorem C5_counterexample_sale_sync_id_ignored :
    C5_db.sales.map Sale.sync_id = [some "S1"]
    ∧ C5_item.sync_id = some "S1"
    ∧ C5_item.id = none
    ∧ (upsertSale C5_db 1 1 C5_item 9).sales.length = 2
    ∧ upload_data C5_db 1 1 { entity_type := "sales", items := [C5_item], last_sync_at := none } 9 =
        (C5_db, Except.error "IntegrityError") :=
  ⟨rfl, rfl, rfl, rfl, rfl⟩

/-- C5 amended: products and customers match by `sync_id` first (when
truthy), then by local id, else insert. Sales and supplier orders match by
local id only — an inbound `sync_id` is never used for matching — and
insert a pending row otherwise; a fresh supplier-order insert can never
commit, because the upsert leaves the NOT NULL columns `order_number` and
`user_id` null, so the commit raises IntegrityError. Suppliers are never
matched nor inserted at all: every `_upsert_supplier` call raises
AttributeError on its eager read of the nonexistent `supplier.contact_name`
attribute (the declared column is `contact_person`). -/
theorem C5_amended_matching_discipline
    (db : DB) (pharmacy_id user_id : Nat) (data : SyncItem) (now : Nat) :
    (truthyStr data.sync_id = true →
      (∃ p ∈ db.products, productSyncQuery pharmacy_id data p = true) →
      (upsertProduct db pharmacy_id data now).products.length = db.products.length)
    ∧ (truthyStr data.sync_id = true →
      (∃ c ∈ db.customers, customerSyncQuery pharmacy_id data c = true) →
      (upsertCustomer db pharmacy_id data now).customers.length = db.customers.length)
    ∧ (truthyNat data.id = false →
      (upsertSale db pharmacy_id user_id data now).sales.length = db.sales.length + 1
      ∧ (upsertSupplierOrder db pharmacy_id data now).orders.length = db.orders.length + 1)
    ∧ (truthyNat data.id = true →
      (∃ s ∈ db.sales, saleIdQuery pharmacy_id data s = true) →
      (upsertSale db pharmacy_id user_id data now).sales.length = db.sales.length)
    ∧ upsertSupplier db pharmacy_id data now = Except.error "AttributeError: contact_name"
    ∧ (truthyNat data.id = false →
      (upload_data db pharmacy_id user_id
        { entity_type := "orders", items := [data], last_sync_at := none } now).2 =
      Except.error "IntegrityError") := by
  refine ⟨?_, ?_, ?_, ?_, rfl, ?_⟩
  · intro h hex
    obtain ⟨l', hs⟩ := Option.isSome_iff_exists.mp
      ((@updateFirst_isSome Product (productSyncQuery pharmacy_id data)
        (applyProduct data now) db.products).mpr hex)
    simp [upsertProduct, h, hs, updateFirst_length hs]
  · intro h hex
    obtain ⟨l', hs⟩ := Option.isSome_iff_exists.mp
      ((@updateFirst_isSome Customer (customerSyncQuery pharmacy_id data)
        (applyCustomer data now) db.customers).mpr hex)
    simp [upsertCustomer, h, hs, updateFirst_length hs]
  · intro h
    refine ⟨?_, ?_⟩
    · simp [upsertSale, h]
    · simp [upsertSupplierOrder, h]
  · intro h hex
    obtain ⟨l', hs⟩ := Option.isSome_iff_exists.mp
      ((@updateFirst_isSome Sale (saleIdQuery pharmacy_id data)
        (applySale data now) db.sales).mpr hex)
    simp [upsertSale, h, hs, updateFirst_length hs]
  · intro hid
    have hstep : ∀ (d : DB) (n : Nat) (it : SyncItem),
        uploadStep pharmacy_id user_id "orders" now (d, n) it =
          .ok (upsertSupplierOrder d pharmacy_id it now, n + 1) := by
      intro d n it
      simp [uploadStep]
    have hfold : List.foldlM (uploadStep pharmacy_id user_id "orders" now) (db, 0) [data] =
        Except.ok (upsertSupplierOrder db pharmacy_id data now, 1) := by
      rw [List.foldlM_cons, hstep, exceptBind_ok]
      rfl
    have hup : upsertSupplierOrder db pharmacy_id data now =
        { db with
          orders := db.orders ++ [applyOrder data now (newOrder db.nextOrderId pharmacy_id)]
          nextOrderId := db.nextOrderId + 1 } := by
      simp [upsertSupplierOrder, hid]
    rw [hup] at hfold
    have hrow : orderRowOk (applyOrder data now (newOrder db.nextOrderId pharmacy_id)) = false := by
      simp [orderRowOk, applyOrder, newOrder]
    have hbad : ({ db with
        orders := db.orders ++ [applyOrder data now (newOrder db.nextOrderId pharmacy_id)]
        nextOrderId := db.nextOrderId + 1 } : DB).orders.all orderRowOk = false := by
      simp [List.all_append, hrow]
    have hne : ({ db with
        orders := db.orders ++ [applyOrder data now (newOrder db.nextOrderId pharmacy_id)]
        nextOrderId := db.nextOrderId + 1 } : DB) ≠ db := by
      intro heq
      have hlen := congrArg (fun d => d.orders.length) heq
      simp at hlen
    have hcs : commitSession db
        ({ db with
          orders := db.orders ++ [applyOrder data now (newOrder db.nextOrderId pharmacy_id)]
          nextOrderId := db.nextOrderId + 1 } : DB) = some "IntegrityError" := by
      simp [commitSession, hne, dbConsistent_false_of_orders_rows hbad]
    rw [upload_data_integrity _ hfold hcs]

/-- The C5 witness fixtures: a database with one product carrying
`sync_id = "P9"` and the sale of the counterexample fixtures. -/
def C5_prodRow : Product := { newProduct 3 1 with sync_id := some "P9" }

def C5_dbW : DB :=
  { emptyDB with products := [C5_prodRow], sales := [C5_sale], nextProductId := 4, nextSaleId := 8 }

def C5_itemP : SyncItem := { item0 with sync_id := some "P9" }

def C5_itemI : SyncItem := { item0 with id := some 7 }

/-- C5 witness: the amended matching discipline at concrete inputs — a
product matched by `sync_id` keeps 1 row, a sale without a local id inserts
a pending row (2 in session), a sale matched by local id keeps 1 row, a
supplier upsert raises AttributeError, and an order insert fails at commit
with IntegrityError. -/
theorem C5_witness :
    (upsertProduct C5_dbW 1 C5_itemP 9).products.length = 1
    ∧ (upsertSale C5_dbW 1 1 C5_item 9).sales.length = 2
    ∧ (upsertSale C5_dbW 1 1 C5_itemI 9).sales.length = 1
    ∧ upsertSupplier C5_dbW 1 C5_item 9 = Except.error "AttributeError: contact_name"
    ∧ (upload_data C5_dbW 1 1
        { entity_type := "orders", items := [C5_item], last_sync_at := none } 9).2 =
      Except.error "IntegrityError" := by
  have h1 := C5_amended_matching_discipline C5_dbW 1 1 C5_itemP 9
  have h2 := C5_amended_matching_discipline C5_dbW 1 1 C5_item 9
  have h3 := C5_amended_matching_discipline C5_dbW 1 1 C5_itemI 9
  refine ⟨h1.1 (by decide) ⟨C5_prodRow, by decide, by decide⟩, ?_, ?_,
    h2.2.2.2.2.1, h2.2.2.2.2.2 (by decide)⟩
  · exact (h2.2.2.1 (by decide)).1
  · exact h3.2.2.2.1 (by decide) ⟨C5_sale, by decide, by decide⟩

/-- The C9 counterexample fixtures: a product whose `sync_id` is already
`A`, upserted with a record matched by local id carrying `sync_id = "B"`. -/
def C9_db : DB :=
  { emptyDB with products := [{ newProduct 1 1 with sync_id := some "A" }], nextProductId := 2 }

def C9_item : SyncItem := { item0 with id := some 1, sync_id := some "B" }

/-- C9 counterexample: the upsert finds no row with `sync_id = "B"`, falls
back to the local-id match, and overwrites the non-null `sync_id = "A"` with
`"B"` — `sync_id` is not immutable after first assignment. -/
theorem C9_counterexample_sync_id_overwritten :
    C9_db.products.map Product.sync_id = [some "A"]
    ∧ (upsertProduct C9_db 1 C9_item 7).products.map Product.sync_id = [some "B"] := by
  decide

/-- C9 amended: after a product or customer upsert, every pre-existing
row's `sync_id` is either unchanged or — only when the inbound record
carries a truthy `sync_id` — overwritten with that inbound value; in
particular a non-null `sync_id` is never cleared back to null, but it can
change to a different non-null value when the row was matched by local id. -/
theorem C9_amended_sync_id_never_cleared
    (db : DB) (pharmacy_id : Nat) (data : SyncItem) (now : Nat) :
    List.Forall₂
      (fun (p p' : Product) =>
        p'.sync_id = p.sync_id
        ∨ (truthyStr data.sync_id = true ∧ p'.sync_id = data.sync_id))
      db.products
      ((upsertProduct db pharmacy_id data now).products.take db.products.length)
    ∧ List.Forall₂
      (fun (c c' : Customer) =>
        c'.sync_id = c.sync_id
        ∨ (truthyStr data.sync_id = true ∧ c'.sync_id = data.sync_id))
      db.customers
      ((upsertCustomer db pharmacy_id data now).customers.take db.customers.length) := by
  constructor
  · have himp : ∀ (x y : Product), (y = x ∨ y = applyProduct data now x) →
        (y.sync_id = x.sync_id ∨ (truthyStr data.sync_id = true ∧ y.sync_id = data.sync_id)) := by
      rintro x y (rfl | rfl)
      · exact Or.inl rfl
      · by_cases h : truthyStr data.sync_id = true
        · exact Or.inr ⟨h, by simp [applyProduct, pyStrOr_of_truthy h]⟩
        · have h' : truthyStr data.sync_id = false := by simpa using h
          left
          simp [applyProduct, pyStrOr, h']
    have hupd : ∀ (q : Product → Bool) (l₁ : List Product),
        updateFirst q (applyProduct data now) db.products = some l₁ →
        List.Forall₂
          (fun (p p' : Product) =>
            p'.sync_id = p.sync_id
            ∨ (truthyStr data.sync_id = true ∧ p'.sync_id = data.sync_id))
          db.products (l₁.take db.products.length) := by
      intro q l₁ hq
      rw [← updateFirst_length hq, List.take_length]
      exact (updateFirst_forall₂ hq).imp himp
    have hins : List.Forall₂
        (fun (p p' : Product) =>
          p'.sync_id = p.sync_id
          ∨ (truthyStr data.sync_id = true ∧ p'.sync_id = data.sync_id))
        db.products
        ((db.products ++
          [applyProduct data now (newProduct db.nextProductId pharmacy_id)]).take
          db.products.length) := by
      rw [List.take_left]
      exact List.forall₂_same.mpr fun y _ => Or.inl rfl
    by_cases hsy : truthyStr data.sync_id = true
    · rcases hs : updateFirst (productSyncQuery pharmacy_id data) (applyProduct data now)
        db.products with _ | l₁
      · by_cases htr : truthyNat data.id = true
        · rcases hid : updateFirst (productIdQuery pharmacy_id data) (applyProduct data now)
            db.products with _ | l₂
          · simpa [upsertProduct, hsy, htr, hs, hid] using hins
          · simpa [upsertProduct, hsy, htr, hs, hid] using hupd _ _ hid
        · have htr' : truthyNat data.id = false := by simpa using htr
          simpa [upsertProduct, hsy, htr', hs] using hins
      · simpa [upsertProduct, hsy, hs] using hupd _ _ hs
    · have hsy' : truthyStr data.sync_id = false := by simpa using hsy
      by_cases htr : truthyNat data.id = true
      · rcases hid : updateFirst (productIdQuery pharmacy_id data) (applyProduct data now)
          db.products with _ | l₂
        · simpa [upsertProduct, hsy', htr, hid] using hins
        · simpa [upsertProduct, hsy', htr, hid] using hupd _ _ hid
      · have htr' : truthyNat data.id = false := by simpa using htr
        simpa [upsertProduct, hsy', htr'] using hins
  · have himp : ∀ (x y : Customer), (y = x ∨ y = applyCustomer data now x) →
        (y.sync_id = x.sync_id ∨ (truthyStr data.sync_id = true ∧ y.sync_id = data.sync_id)) := by
      rintro x y (rfl | rfl)
      · exact Or.inl rfl
      · by_cases h : truthyStr data.sync_id = true
        · exact Or.inr ⟨h, by simp [applyCustomer, pyStrOr_of_truthy h]⟩
        · have h' : truthyStr data.sync_id = false := by simpa using h
          left
          simp [applyCustomer, pyStrOr, h']
    have hupd : ∀ (q : Customer → Bool) (l₁ : List Customer),
        updateFirst q (applyCustomer data now) db.customers = some l₁ →
        List.Forall₂
          (fun (c c' : Customer) =>
            c'.sync_id = c.sync_id
            ∨ (truthyStr data.sync_id = true ∧ c'.sync_id = data.sync_id))
          db.customers (l₁.take db.customers.length) := by
      intro q l₁ hq
      rw [← updateFirst_length hq, List.take_length]
      exact (updateFirst_forall₂ hq).imp himp
    have hins : List.Forall₂
        (fun (c c' : Customer) =>
          c'.sync_id = c.sync_id
          ∨ (truthyStr data.sync_id = true ∧ c'.sync_id = data.sync_id))
        db.customers
        ((db.customers ++
          [applyCustomer data now (newCustomer db.nextCustomerId pharmacy_id)]).take
          db.customers.length) := by
      rw [List.take_left]
      exact List.forall₂_same.mpr fun y _ => Or.inl rfl
    by_cases hsy : truthyStr data.sync_id = true
    · rcases hs : updateFirst (customerSyncQuery pharmacy_id data) (applyCustomer data now)
        db.customers with _ | l₁
      · by_cases htr : truthyNat data.id = true
        · rcases hid : updateFirst (customerIdQuery pharmacy_id data) (applyCustomer data now)
            db.customers with _ | l₂
          · simpa [upsertCustomer, hsy, htr, hs, hid] using hins
          · simpa [upsertCustomer, hsy, htr, hs, hid] using hupd _ _ hid
        · have htr' : truthyNat data.id = false := by simpa using htr
          simpa [upsertCustomer, hsy, htr', hs] using hins
      · simpa [upsertCustomer, hsy, hs] using hupd _ _ hs
    · have hsy' : truthyStr data.sync_id = false := by simpa using hsy
      by_cases htr : truthyNat data.id = true
      · rcases hid : updateFirst (customerIdQuery pharmacy_id data) (applyCustomer data now)
          db.customers with _ | l₂
        · simpa [upsertCustomer, hsy', htr, hid] using hins
        · simpa [upsertCustomer, hsy', htr, hid] using hupd _ _ hid
      · have htr' : truthyNat data.id = false := by simpa using htr
        simpa [upsertCustomer, hsy', htr'] using hins

/-- The C1 scenario fixtures: product P1 modified locally at t=10 with
`last_sync_at = NULL`; an UPLOAD run at t=20 with baseline NULL, then a
second run at t=21 with baseline 20 and no further local changes. -/
def C1_P1 : Product := { newProduct 1 1 with updated_at := 10 }

def C1_state : SyncState :=
  { db := { emptyDB with products := [C1_P1], nextProductId := 2 }
    pharmacies := [{ id := 1, last_sync_at := none }]
    sync_logs := [] }

def C1_run1 : SyncState × Except String SyncResponse :=
  sync_data C1_state 1 1 "run1"
    { direction := .upload, entity_types := some ["products"], last_sync_at := none,
      conflicts := none } 20 none

def C1_run2 : SyncState × Except String SyncResponse :=
  sync_data C1_run1.1 1 1 "run2"
    { direction := .upload, entity_types := some ["products"], last_sync_at := some 20,
      conflicts := none } 21 none

/-- C1, evaluated on the code at the scenario input: the first run counts P1
(`records_uploaded = 1`) and advances the pharmacy baseline to 20, but it
never uploads anything and never sets `P1.last_sync_at` (still null); hence
the second run at t=21 with baseline 20 selects P1 again through the
`last_sync_at IS NULL` disjunct and reports `records_uploaded = 1`, not the
0 the claim states. -/
theorem C1_scenario_second_run_not_zero :
    C1_run1.2 = Except.ok
      { sync_id := "run1", status := .completed, records_uploaded := 1,
        records_downloaded := 0, conflicts_count := 0,
        message := "Synchronization completed successfully" }
    ∧ C1_run1.1.pharmacies = [{ id := 1, last_sync_at := some 20 }]
    ∧ C1_run1.1.db.products.map Product.last_sync_at = [none]
    ∧ C1_run2.2 = Except.ok
      { sync_id := "run2", status := .completed, records_uploaded := 1,
        records_downloaded := 0, conflicts_count := 0,
        message := "Synchronization completed successfully" } :=
  ⟨rfl, rfl, rfl, rfl⟩

/-- C2: whenever an exception is raised during the upload, download or
conflict-handling phase of a run (the session row already exists), the
session is finalized FAILED with the error message recorded and the error
is surfaced to the caller, while the database and the tenant baseline
(`pharmacy.last_sync_at`) are left unchanged; moreover, on every run
(with or without an exception), if the baseline changed at all then the
appended session row is COMPLETED — the baseline never advances with a
FAILED session. -/
theorem C2_failure_finalizes_failed_and_preserves_baseline
    (st : SyncState) (pharmacy_id user_id : Nat) (uuid : String) (req : SyncRequest)
    (now : Nat) (e : SyncExn) (h : phaseRuns req e.phase = true) :
    (sync_data st pharmacy_id user_id uuid req now (some e)).2 =
        Except.error ("Synchronization failed: " ++ e.msg)
    ∧ (sync_data st pharmacy_id user_id uuid req now (some e)).1.pharmacies = st.pharmacies
    ∧ (sync_data st pharmacy_id user_id uuid req now (some e)).1.db = st.db
    ∧ (∃ row, (sync_data st pharmacy_id user_id uuid req now (some e)).1.sync_logs =
          st.sync_logs ++ [row]
        ∧ row.status = SyncStatus.failed ∧ row.error_message = some e.msg ∧ row.sync_id = uuid)
    ∧ (∀ exn : Option SyncExn,
        (sync_data st pharmacy_id user_id uuid req now exn).1.pharmacies ≠ st.pharmacies →
        ∃ row, (sync_data st pharmacy_id user_id uuid req now exn).1.sync_logs =
            st.sync_logs ++ [row]
          ∧ row.status = SyncStatus.completed) := by
  refine ⟨by simp [sync_data, h], by simp [sync_data, h], by simp [sync_data, h], ?_, ?_⟩
  · exact
      ⟨{ pharmacy_id := pharmacy_id
         user_id := user_id
         sync_id := uuid
         direction := req.direction
         status := .failed
         records_uploaded := 0
         records_downloaded := 0
         conflicts_count := 0
         error_message := some e.msg
         completed_at := some now },
       by simp [sync_data, h], rfl, rfl, rfl⟩
  · intro exn hne
    match exn with
    | none => exact ⟨_, rfl, rfl⟩
    | some e' =>
      by_cases hp : phaseRuns req e'.phase = true
      · have : (sync_data st pharmacy_id user_id uuid req now (some e')).1.pharmacies =
            st.pharmacies := by
          simp [sync_data, hp]
        exact absurd this hne
      · have hp' : phaseRuns req e'.phase = false := by simpa using hp
        have hred : sync_data st pharmacy_id user_id uuid req now (some e') =
            sync_data st pharmacy_id user_id uuid req now none := by
          simp [sync_data, hp']
        rw [hred]
        exact ⟨_, rfl, rfl⟩

/-- The C2 witness fixtures. -/
def C2_st : SyncState :=
  { db := emptyDB, pharmacies := [{ id := 1, last_sync_at := some 3 }], sync_logs := [] }

def C2_req : SyncRequest :=
  { direction := .upload, entity_types := none, last_sync_at := none, conflicts := none }

/-- C2 witness: an exception `boom` injected in the upload phase of a
concrete run is surfaced as an HTTP 500 and leaves the baseline unchanged,
and the appended session row is FAILED with the message recorded. -/
theorem C2_witness :
    (sync_data C2_st 1 1 "w2" C2_req 5 (some ⟨.uploadPhase, "boom"⟩)).2 =
        Except.error ("Synchronization failed: " ++ "boom")
    ∧ (sync_data C2_st 1 1 "w2" C2_req 5 (some ⟨.uploadPhase, "boom"⟩)).1.pharmacies =
        C2_st.pharmacies
    ∧ ∃ row, (sync_data C2_st 1 1 "w2" C2_req 5 (some ⟨.uploadPhase, "boom"⟩)).1.sync_logs =
          C2_st.sync_logs ++ [row]
        ∧ row.status = SyncStatus.failed ∧ row.error_message = some "boom"
        ∧ row.sync_id = "w2" := by
  have h := C2_failure_finalizes_failed_and_preserves_baseline C2_st 1 1 "w2" C2_req 5
    ⟨.uploadPhase, "boom"⟩ (by decide)
  exact ⟨h.1, h.2.1, h.2.2.2.1⟩

/-- The C4 counterexample fixtures: two runs for tenant 1, both issued with
the same baseline 10 (one serialized interleaving of the two concurrent
`start sync` calls — the code takes no lock and never reads the stored
baseline, so this schedule is reachable). -/
def C4_st : SyncState :=
  { db := emptyDB, pharmacies := [{ id := 1, last_sync_at := some 10 }], sync_logs := [] }

def C4_req : SyncRequest :=
  { direction := .upload, entity_types := none, last_sync_at := some 10, conflicts := none }

def C4_runA : SyncState × Except String SyncResponse := sync_data C4_st 1 1 "runA" C4_req 30 none

def C4_runB : SyncState × Except String SyncResponse := sync_data C4_runA.1 1 1 "runB" C4_req 31 none

/-- C4 counterexample: both runs starting from baseline 10 finish COMPLETED
(none fails with a ConcurrentSyncError — no such error exists in the code),
and each unconditionally overwrites the baseline, so "exactly one run
finishes COMPLETED and advances the baseline" is false. -/
theorem C4_counterexample_both_runs_complete :
    C4_runB.1.sync_logs.map SyncLogRow.status = [SyncStatus.completed, SyncStatus.completed]
    ∧ C4_runA.1.pharmacies = [{ id := 1, last_sync_at := some 30 }]
    ∧ C4_runB.1.pharmacies = [{ id := 1, last_sync_at := some 31 }] := by
  decide

/-- C4 amended: baseline advancement performs no compare-and-swap — a run
never reads the stored baseline and every exception-free run finalizes
COMPLETED and unconditionally overwrites `pharmacy.last_sync_at` with its
own completion time; two runs for the same tenant from the same baseline
therefore both complete, and the stored baseline ends as the later run's
time (last writer wins). -/
theorem C4_amended_last_writer_wins
    (st : SyncState) (pharmacy_id user_id : Nat) (u1 u2 : String)
    (req1 req2 : SyncRequest) (now1 now2 : Nat) :
    (∃ r1, (sync_data st pharmacy_id user_id u1 req1 now1 none).1.sync_logs =
        st.sync_logs ++ [r1] ∧ r1.status = SyncStatus.completed)
    ∧ (∃ r2, (sync_data (sync_data st pharmacy_id user_id u1 req1 now1 none).1
          pharmacy_id user_id u2 req2 now2 none).1.sync_logs =
        (sync_data st pharmacy_id user_id u1 req1 now1 none).1.sync_logs ++ [r2]
        ∧ r2.status = SyncStatus.completed)
    ∧ ∀ ph ∈ (sync_data (sync_data st pharmacy_id user_id u1 req1 now1 none).1
          pharmacy_id user_id u2 req2 now2 none).1.pharmacies,
        ph.id = pharmacy_id → ph.last_sync_at = some now2 := by
  refine ⟨⟨_, rfl, rfl⟩, ⟨_, rfl, rfl⟩, ?_⟩
  intro ph hmem hid
  have hmem' : ph ∈ ((sync_data st pharmacy_id user_id u1 req1 now1 none).1.pharmacies).map
      (fun q => if q.id = pharmacy_id then { q with last_sync_at := some now2 } else q) := hmem
  obtain ⟨q, hq, rfl⟩ := List.mem_map.mp hmem'
  by_cases h1 : q.id = pharmacy_id
  · simp [h1]
  · simp [h1] at hid

/-- The C7 counterexample fixtures: a request with valid direction `upload`
but unknown entity type `bogus`. -/
def C7_st : SyncState :=
  { db := emptyDB, pharmacies := [{ id := 1, last_sync_at := none }], sync_logs := [] }

def C7_raw : RawSyncRequest :=
  { direction := "upload", entity_types := some ["bogus"], last_sync_at := none,
    conflicts := none }

def C7_run : SyncState × Except String SyncResponse := sync_endpoint C7_st 1 1 "c7" C7_raw 9 none

/-- C7 counterexample: a request with unknown entity type `bogus` is not
rejected — the endpoint writes a session row and completes successfully, so
"for every sync request with an unknown direction or an unknown entity
type, the request is rejected ... before any session row is written" is
false for the unknown-entity-type half. -/
theorem C7_counterexample_unknown_entity_type_logged :
    C7_run.1.sync_logs.map (fun r => (r.sync_id, r.status)) = [("c7", SyncStatus.completed)]
    ∧ C7_run.2 = Except.ok
      { sync_id := "c7", status := .completed, records_uploaded := 0,
        records_downloaded := 0, conflicts_count := 0,
        message := "Synchronization completed successfully" } :=
  ⟨rfl, rfl⟩

/-- C7 amended: only the direction is validated — an unknown direction is
rejected by the pydantic schema before any session row is written, while
unknown entity types are accepted: the run proceeds, appends a COMPLETED
session row, and each unknown entity type merely contributes zero records
to the upload count. -/
theorem C7_amended_direction_only_validation
    (st : SyncState) (pharmacy_id user_id : Nat) (uuid : String) (raw : RawSyncRequest)
    (now : Nat) (exn : Option SyncExn) :
    (parse_direction raw.direction = none →
      sync_endpoint st pharmacy_id user_id uuid raw now exn =
        (st, Except.error "validation error: direction is not a valid SyncDirection"))
    ∧ (∀ (db : DB) (baseline : Option Nat) (et : String),
        et ∉ defaultEntityTypes → uploadEntities db pharmacy_id et baseline = 0)
    ∧ (∀ dir, parse_direction raw.direction = some dir →
        ∃ row, (sync_endpoint st pharmacy_id user_id uuid raw now none).1.sync_logs =
            st.sync_logs ++ [row]
          ∧ row.status = SyncStatus.completed) := by
  refine ⟨?_, ?_, ?_⟩
  · intro h
    simp [sync_endpoint, h]
  · intro db baseline et het
    obtain ⟨h1, h2, h3, h4, h5⟩ : et ≠ "products" ∧ et ≠ "sales" ∧ et ≠ "customers" ∧
        et ≠ "suppliers" ∧ et ≠ "orders" := by
      simpa [defaultEntityTypes] using het
    simp [uploadEntities, h1, h2, h3, h4, h5]
  · intro dir h
    simp only [sync_endpoint, h]
    exact ⟨_, rfl, rfl⟩

/-- C7 witness: an unknown direction `sideways` is rejected with no state
change; `bogus` contributes zero records to an upload count; a valid
request (even with entity type `bogus`) appends a COMPLETED session row. -/
theorem C7_witness :
    sync_endpoint C7_st 1 1 "w7"
        { direction := "sideways", entity_types := some ["bogus"], last_sync_at := none,
          conflicts := none } 9 none =
      (C7_st, Except.error "validation error: direction is not a valid SyncDirection")
    ∧ uploadEntities emptyDB 1 "bogus" none = 0
    ∧ ∃ row, (sync_endpoint C7_st 1 1 "w7b" C7_raw 9 none).1.sync_logs =
          C7_st.sync_logs ++ [row]
        ∧ row.status = SyncStatus.completed := by
  have h1 := C7_amended_direction_only_validation C7_st 1 1 "w7"
    { direction := "sideways", entity_types := some ["bogus"], last_sync_at := none,
      conflicts := none } 9 none
  have h2 := C7_amended_direction_only_validation C7_st 1 1 "w7b" C7_raw 9 none
  exact ⟨h1.1 (by decide), h1.2.1 emptyDB none "bogus" (by decide),
    h2.2.2 SyncDirection.upload (by decide)⟩

end SaasPharma

